import Mathlib

/-!
Shallow embedding of the serverless payment-event orchestration layer
(`src/functions/index.js`): the Stripe charge orchestrator, customer registry
sync, payment-source orchestrator, error sanitization, and the two
email-confirmation handlers, together with the Realtime-Database tree they
read and write.
-/

/-- A JavaScript value as it appears in the handlers: the `undefined` value,
`null`, booleans, numbers (modelled as integers; the handlers only move
amounts around), strings, and objects as association lists of fields. -/
inductive JVal where
  | undefined : JVal
  | null : JVal
  | bool : Bool → JVal
  | num : Int → JVal
  | str : String → JVal
  | obj : List (String × JVal) → JVal
deriving Repr

mutual

/-- Decidable equality for JS values (written by hand: the derive handler does
not support the nested object constructor). -/
def JVal.decEq : (a b : JVal) → Decidable (a = b)
  | .undefined, .undefined => .isTrue rfl
  | .null, .null => .isTrue rfl
  | .bool a, .bool b =>
      match Bool.decEq a b with
      | .isTrue h => .isTrue (by rw [h])
      | .isFalse h => .isFalse (fun hh => by cases hh; exact h rfl)
  | .num a, .num b =>
      match Int.decEq a b with
      | .isTrue h => .isTrue (by rw [h])
      | .isFalse h => .isFalse (fun hh => by cases hh; exact h rfl)
  | .str a, .str b =>
      match String.decEq a b with
      | .isTrue h => .isTrue (by rw [h])
      | .isFalse h => .isFalse (fun hh => by cases hh; exact h rfl)
  | .obj fs, .obj gs =>
      match JVal.decEqFields fs gs with
      | .isTrue h => .isTrue (by rw [h])
      | .isFalse h => .isFalse (fun hh => by cases hh; exact h rfl)
  | .undefined, .null => .isFalse nofun
  | .undefined, .bool _ => .isFalse nofun
  | .undefined, .num _ => .isFalse nofun
  | .undefined, .str _ => .isFalse nofun
  | .undefined, .obj _ => .isFalse nofun
  | .null, .undefined => .isFalse nofun
  | .null, .bool _ => .isFalse nofun
  | .null, .num _ => .isFalse nofun
  | .null, .str _ => .isFalse nofun
  | .null, .obj _ => .isFalse nofun
  | .bool _, .undefined => .isFalse nofun
  | .bool _, .null => .isFalse nofun
  | .bool _, .num _ => .isFalse nofun
  | .bool _, .str _ => .isFalse nofun
  | .bool _, .obj _ => .isFalse nofun
  | .num _, .undefined => .isFalse nofun
  | .num _, .null => .isFalse nofun
  | .num _, .bool _ => .isFalse nofun
  | .num _, .str _ => .isFalse nofun
  | .num _, .obj _ => .isFalse nofun
  | .str _, .undefined => .isFalse nofun
  | .str _, .null => .isFalse nofun
  | .str _, .bool _ => .isFalse nofun
  | .str _, .num _ => .isFalse nofun
  | .str _, .obj _ => .isFalse nofun
  | .obj _, .undefined => .isFalse nofun
  | .obj _, .null => .isFalse nofun
  | .obj _, .bool _ => .isFalse nofun
  | .obj _, .num _ => .isFalse nofun
  | .obj _, .str _ => .isFalse nofun

/-- Decidable equality for object field lists. -/
def JVal.decEqFields : (a b : List (String × JVal)) → Decidable (a = b)
  | [], [] => .isTrue rfl
  | [], _ :: _ => .isFalse nofun
  | _ :: _, [] => .isFalse nofun
  | (k, v) :: r, (k2, v2) :: r2 =>
      match String.decEq k k2, JVal.decEq v v2, JVal.decEqFields r r2 with
      | .isTrue h1, .isTrue h2, .isTrue h3 => .isTrue (by rw [h1, h2, h3])
      | .isFalse h1, _, _ => .isFalse (fun hh => by cases hh; exact h1 rfl)
      | _, .isFalse h2, _ => .isFalse (fun hh => by cases hh; exact h2 rfl)
      | _, _, .isFalse h3 => .isFalse (fun hh => by cases hh; exact h3 rfl)

end

instance : DecidableEq JVal := JVal.decEq

/-- Field lookup in an object's field list (first match wins, as in a JS
object literal read). -/
def lookupField : List (String × JVal) → String → Option JVal
  | [], _ => none
  | (k, v) :: rest, key => if k = key then some v else lookupField rest key

/-- JS property access `v.k`: throws a TypeError on `null` and `undefined`,
yields the field (or `undefined` for a missing field) on objects, and
`undefined` on other primitives. -/
def JVal.member : JVal → String → Except String JVal
  | .null, _ => .error "TypeError"
  | .undefined, _ => .error "TypeError"
  | .obj fs, k =>
      match lookupField fs k with
      | some v => .ok v
      | none => .ok .undefined
  | _, _ => .ok .undefined

/-- JS truthiness: `undefined`, `null`, `false`, `0` and the empty string are
falsy; every object is truthy. -/
def JVal.truthy : JVal → Bool
  | .undefined => false
  | .null => false
  | .bool b => b
  | .num n => n != 0
  | .str s => s != ""
  | .obj _ => true

/-- Whether a JS value is an object carrying the given field (presence, not
truthiness). -/
def JVal.hasField : JVal → String → Bool
  | .obj fs, k => (lookupField fs k).isSome
  | _, _ => false

/-- A Realtime-Database path, as the list of keys from the root. -/
abbrev DBPath := List String

/-- Firebase read, i.e. `ref(path).once(value)` followed by `snapshot.val()`:
descend through the tree; a missing child or a non-object ancestor reads as
`null`. -/
def dbRead : JVal → DBPath → JVal
  | v, [] => v
  | .obj fs, k :: rest =>
      match lookupField fs k with
      | some c => dbRead c rest
      | none => .null
  | _, _ :: _ => .null

/-- Replace (or append) the binding of a key in a field list. -/
def setField : List (String × JVal) → String → JVal → List (String × JVal)
  | [], k, v => [(k, v)]
  | (k1, v1) :: rest, k, v =>
      if k1 = k then (k, v) :: rest else (k1, v1) :: setField rest k v

/-- Firebase write, i.e. `ref(path).set(v)` (`remove()` is `set null`): replace the
subtree at the path, materialising intermediate objects. -/
def dbWrite : JVal → DBPath → JVal → JVal
  | _, [], v => v
  | .obj fs, k :: rest, v =>
      .obj (setField fs k (dbWrite (match lookupField fs k with
        | some c => c
        | none => .null) rest v))
  | _, k :: rest, v => .obj [(k, dbWrite .null rest v)]

/-- Function `userFacingMessage(error)` from `src/functions/index.js`: the raw
`error.message` when `error.type` is truthy, a generic fallback otherwise.
Property access throws when the error value is `null` or `undefined`. -/
def userFacingMessage (error : JVal) : Except String JVal :=
  match error.member "type" with
  | .error e => .error e
  | .ok t =>
      if t.truthy then error.member "message"
      else .ok (.str "An error occurred, developers have been alerted")

/-- The charge object handed to `stripe.charges.create`: amount, currency,
customer, and the `source` key, which is present exactly when the triggering
value's `source` member is not `null`. -/
structure ChargePayload where
  amount : JVal
  currency : String
  customer : JVal
  source : Option JVal
deriving Repr, DecidableEq

/-- Observable behaviour of one `createStripeCharge` invocation: the provider
calls made (payload and idempotency key), the database after the invocation,
the errors forwarded to the Error Reporter (raw error and the context user
id), and whether the invocation resolved. -/
structure ChargeOutcome where
  providerCalls : List (ChargePayload × String)
  db : JVal
  reported : List (JVal × String)
  ok : Bool
deriving Repr, DecidableEq

/-- Handler `createStripeCharge` from `src/functions/index.js`, for one `onWrite`
event at `/stripe_customers/{userId}/charges/{id}` whose new value is `val`.
`stripeCh` is the payment provider's charge endpoint (payload and idempotency
key to response or rejection); `sinkOk` is whether the Error Reporter's log
write acknowledges; `curr` is the process-wide configured currency. Database
writes are modelled as always succeeding. -/
def createStripeCharge (stripeCh : ChargePayload → String → Except JVal JVal)
    (sinkOk : Bool) (curr : String) (db : JVal) (userId id : String)
    (val : JVal) : ChargeOutcome :=
  if val = .null then ⟨[], db, [], true⟩
  else
    match val.member "id" with
    | .error _ => ⟨[], db, [], false⟩
    | .ok idv =>
      if idv.truthy then ⟨[], db, [], true⟩
      else
        match val.member "error" with
        | .error _ => ⟨[], db, [], false⟩
        | .ok errv =>
          if errv.truthy then ⟨[], db, [], true⟩
          else
            let customer := dbRead db ["stripe_customers", userId, "customer_id"]
            match val.member "amount", val.member "source" with
            | .ok amount, .ok source =>
              let charge : ChargePayload :=
                { amount := amount, currency := curr, customer := customer,
                  source := if source ≠ .null then some source else none }
              match stripeCh charge id with
              | .ok response =>
                  ⟨[(charge, id)],
                   dbWrite db ["stripe_customers", userId, "charges", id] response,
                   [], true⟩
              | .error err =>
                  match userFacingMessage err with
                  | .ok msg =>
                      ⟨[(charge, id)],
                       dbWrite db ["stripe_customers", userId, "charges", id, "error"] msg,
                       [(err, userId)], sinkOk⟩
                  | .error _ => ⟨[(charge, id)], db, [], false⟩
            | _, _ => ⟨[], db, [], false⟩

/-- Observable behaviour of one `addPaymentSource` invocation: the provider
`createSource` calls made (customer and source token), the database after the
invocation, the errors forwarded to the Error Reporter, and whether the
invocation resolved. -/
structure SourceOutcome where
  attachCalls : List (JVal × JVal)
  db : JVal
  reported : List (JVal × String)
  ok : Bool
deriving Repr, DecidableEq

/-- Handler `addPaymentSource` from `src/functions/index.js`, for one `onWrite` event
at `/stripe_customers/{userId}/sources/{pushId}/token` whose new value is
`source`. Success and error results are written at the parent node
`/stripe_customers/{userId}/sources/{pushId}` (its `error` child on
failure). -/
def addPaymentSource (createSource : JVal → JVal → Except JVal JVal)
    (sinkOk : Bool) (db : JVal) (userId pushId : String)
    (source : JVal) : SourceOutcome :=
  if source = .null then ⟨[], db, [], true⟩
  else
    let customer := dbRead db ["stripe_customers", userId, "customer_id"]
    match createSource customer source with
    | .ok response =>
        ⟨[(customer, source)],
         dbWrite db ["stripe_customers", userId, "sources", pushId] response,
         [], true⟩
    | .error err =>
        match userFacingMessage err with
        | .ok msg =>
            ⟨[(customer, source)],
             dbWrite db ["stripe_customers", userId, "sources", pushId, "error"] msg,
             [(err, userId)], sinkOk⟩
        | .error _ => ⟨[(customer, source)], db, [], false⟩

/-- Observable behaviour of one `createTheStripeCustomer` invocation, generic
in the provider's state type: the arguments passed to `stripe.customers.create`,
the database after the invocation, the provider state after the invocation,
and whether the invocation resolved. -/
structure CreateOutcome (α : Type) where
  createCalls : List JVal
  db : JVal
  provider : α
  ok : Bool
deriving Repr, DecidableEq

/-- Handler `createTheStripeCustomer` from `src/functions/index.js`, for one
auth `onCreate` event for the account `uid` with the given `email` value.
The payload passed to the provider is the object with the single `email`
field; on success the returned customer's `id` member is written to
`/stripe_customers/{uid}/customer_id`. -/
def createTheStripeCustomer {α : Type}
    (create : α → JVal → Except JVal (α × JVal)) (st : α)
    (db : JVal) (uid : String) (email : JVal) : CreateOutcome α :=
  let arg := JVal.obj [("email", email)]
  match create st arg with
  | .ok (st2, customer) =>
      match customer.member "id" with
      | .ok cid =>
          ⟨[arg], dbWrite db ["stripe_customers", uid, "customer_id"] cid, st2, true⟩
      | .error _ => ⟨[arg], db, st2, false⟩
  | .error _ => ⟨[arg], db, st, false⟩

/-- Observable behaviour of one `cleanupUser` invocation, generic in the
provider's state type: the arguments passed to `stripe.customers.del`, the
database after the invocation, the provider state after the invocation, and
whether the invocation resolved. -/
structure CleanupOutcome (α : Type) where
  delCalls : List JVal
  db : JVal
  provider : α
  ok : Bool
deriving Repr, DecidableEq

/-- Handler `cleanupUser` from `src/functions/index.js`, for one auth
`onDelete` event for the account `uid`. It reads the whole node
`/stripe_customers/{uid}`, passes that value to `stripe.customers.del`, and
only when that call succeeds removes the node (`remove()` is `set null`). -/
def cleanupUser {α : Type} (del : α → JVal → Except JVal α) (st : α)
    (db : JVal) (uid : String) : CleanupOutcome α :=
  let customer := dbRead db ["stripe_customers", uid]
  match del st customer with
  | .ok st2 => ⟨[customer], dbWrite db ["stripe_customers", uid] .null, st2, true⟩
  | .error _ => ⟨[customer], db, st, false⟩

/-- State of the payment provider's customer store in the test double
(spec section 8 verifies the account round trip with a test double provider):
the registered customers (provider customer id, creation payload) and a
counter for fresh ids. -/
structure StripeState where
  customers : List (String × JVal)
  nextId : Nat
deriving Repr, DecidableEq

/-- Test double for `stripe.customers.create`: registers a fresh customer id
for the payload and answers with the customer object carrying that id. -/
def customersCreate (st : StripeState) (arg : JVal) : StripeState × JVal :=
  let cid := "cus_" ++ toString st.nextId
  ({ customers := st.customers ++ [(cid, arg)], nextId := st.nextId + 1 },
   .obj [("id", .str cid)])

/-- Test double for `stripe.customers.del`: deletes exactly when handed the id
string of a registered customer, and rejects any other argument (the real
provider rejects a deletion request whose customer id is not a known id). -/
def customersDel (st : StripeState) (arg : JVal) : Except JVal StripeState :=
  match arg with
  | .str cid =>
      if st.customers.any (fun p => p.1 == cid) then
        .ok { st with customers := st.customers.filter (fun p => p.1 != cid) }
      else .error (.str "No such customer")
  | _ => .error (.str "Invalid customer id")

/-- Account round trip against the test double provider: run
`createTheStripeCustomer` for a fresh account, then `cleanupUser` for the same
account on the resulting database and provider state. -/
def roundTrip (st : StripeState) (db : JVal) (uid : String)
    (email : JVal) : CleanupOutcome StripeState :=
  let created := createTheStripeCustomer
    (fun s a => .ok (customersCreate s a)) st db uid email
  cleanupUser customersDel created.provider created.db uid

/-- An email handed to the mail transport: recipient, subject and HTML body. -/
structure EmailMsg where
  recipient : JVal
  subject : String
  html : String
deriving Repr, DecidableEq

/-- Observable behaviour of one email handler invocation: the emails handed to
the transport and whether the invocation resolved (transport failures are
caught and logged, so they do not reject the invocation). -/
structure MailOutcome where
  sent : List EmailMsg
  ok : Bool
deriving Repr, DecidableEq

/-- Body of the admin-confirmation email, with the hosting project name
substituted for the environment variable. -/
def adminHtml (project : String) : String :=
  "<h2>FireShop</h2>You have been added as an admin to FireShop. <br><br>Sign in now: https://"
    ++ project ++ ".firebaseapp.com/register"

/-- Handler `sendEmailConfirmation` from `src/functions/index.js`, for one
`onWrite` event at `/admins/{id}` taking the record from the old value
`_before` to the new value `val`. The code's early return tests
`snapshot.changed(active)`, but in the firebase-functions v0.x DeltaSnapshot
API `changed()` takes no argument: the `active` string is ignored and
`changed()` holds for every delivered write, so the early return never fires
and the outcome does not depend on the old value.
The handler then builds the mail options from `val.email` and tests
`val.active` (property access throws on a `null` record, rejecting the
invocation), sending the confirmation email exactly when `val.active` is
falsy. -/
def sendEmailConfirmation (project : String) (_before val : JVal) : MailOutcome :=
  match val.member "email" with
  | .error _ => ⟨[], false⟩
  | .ok email =>
    match val.member "active" with
    | .error _ => ⟨[], false⟩
    | .ok active =>
      if !active.truthy then
        ⟨[⟨email, "Admin Confirmation", adminHtml project⟩], true⟩
      else ⟨[], true⟩

/-- Body of the order-confirmation email for an order id, with the hosting
project name substituted for the environment variable. -/
def orderHtml (project orderId : String) : String :=
  "<h2>FireShop</h2>Order #" ++ orderId
    ++ ". This is a confirmation email for you order on FireShop. <br><br>"
    ++ "View order details and status by logging in: https://" ++ project
    ++ ".firebaseapp.com/account/order/" ++ orderId

/-- Handler `sendOrderConfirmation` from `src/functions/index.js`, for one
`onCreate` event at `/users/{uid}/orders/{orderId}`: it reads the owning user
record (the grandparent of the created node) and sends the confirmation email
exactly when that record's `email` member is truthy. -/
def sendOrderConfirmation (project : String) (db : JVal)
    (uid orderId : String) : MailOutcome :=
  let user := dbRead db ["users", uid]
  match user.member "email" with
  | .error _ => ⟨[], false⟩
  | .ok email =>
      if email.truthy then
        ⟨[⟨email, "Order Confirmation", orderHtml project orderId⟩], true⟩
      else ⟨[], true⟩

/-- Value of a JS property access on a value it does not throw on (objects and
primitives yield a value, missing fields yield `undefined`); used to phrase
claims about the fields of event values. -/
def memberD (v : JVal) (k : String) : JVal :=
  match v.member k with
  | .ok t => t
  | .error _ => .undefined

/-- Sample provider charge endpoint that accepts every charge. -/
def okChargeStripe : ChargePayload → String → Except JVal JVal :=
  fun _ _ => .ok (.obj [("id", .str "ch_1")])

/-- Sample provider rejection: a card error with a user-facing message. -/
def cardError : JVal :=
  .obj [("type", .str "card_error"), ("message", .str "Your card was declined.")]

/-- Sample provider charge endpoint that rejects every charge with a card
error. -/
def declinedChargeStripe : ChargePayload → String → Except JVal JVal :=
  fun _ _ => .error cardError

/-- Sample database holding one registered customer record. -/
def dbOneCustomer : JVal :=
  .obj [("stripe_customers", .obj [("u1", .obj [("customer_id", .str "cus_123")])])]

/-- Sample database holding one user with one order and no email field. -/
def dbOneOrder : JVal :=
  .obj [("users", .obj [("u1", .obj [("orders", .obj [("o1", .obj [("total", .num 5)])])])])]

/-- Sample charge-request value carrying an `id` field with a falsy value. -/
def chargeValFalsyId : JVal := .obj [("amount", .num 500), ("id", .num 0)]

/-- The fresh charge-request value of spec section 8: amount 500, null
source. -/
def freshCharge500 : JVal := .obj [("amount", .num 500), ("source", .null)]

/-- Sample charge-request value already processed: it carries a truthy
response id. -/
def chargeValProcessed : JVal := .obj [("amount", .num 500), ("id", .str "ch_9")]

/-- Sample provider source-attachment endpoint that accepts every source. -/
def okSourceStripe : JVal → JVal → Except JVal JVal :=
  fun _ _ => .ok (.obj [("id", .str "src_1")])

/-- Sample admin record before a change. -/
def adminBefore : JVal := .obj [("email", .str "a@b"), ("active", .bool true)]

/-- Sample admin record after a change that does not touch `active`. -/
def adminAfter : JVal :=
  .obj [("email", .str "a@b"), ("active", .bool true), ("role", .str "editor")]

/-! ## Helper lemmas about the database tree -/

/-- Reading any path out of `null` yields `null`. -/
theorem dbRead_null (q : DBPath) : dbRead .null q = .null := by
  cases q <;> rfl

/-- Database reads decompose along path concatenation. -/
theorem dbRead_append (p q : DBPath) :
    ∀ v : JVal, dbRead v (p ++ q) = dbRead (dbRead v p) q := by
  induction p with
  | nil => intro v; cases v <;> rfl
  | cons k p ih =>
      intro v
      cases v with
      | obj fs =>
          simp only [List.cons_append, dbRead]
          cases h : lookupField fs k with
          | some c => exact ih c
          | none => exact (dbRead_null q).symm
      | undefined => exact (dbRead_null q).symm
      | null => exact (dbRead_null q).symm
      | bool b => exact (dbRead_null q).symm
      | num n => exact (dbRead_null q).symm
      | str s => exact (dbRead_null q).symm

/-- A non-null read through a child key forces the value to be an object. -/
theorem dbRead_cons_ne_null {v : JVal} {k : String} {rest : DBPath}
    (h : dbRead v (k :: rest) ≠ .null) : ∃ fs, v = .obj fs := by
  cases v with
  | obj fs => exact ⟨fs, rfl⟩
  | undefined => exact absurd rfl h
  | null => exact absurd rfl h
  | bool b => exact absurd rfl h
  | num n => exact absurd rfl h
  | str s => exact absurd rfl h

/-- Property access on an object never throws and yields the `memberD`
value. -/
theorem member_obj (fs : List (String × JVal)) (k : String) :
    (JVal.obj fs).member k = .ok (memberD (.obj fs) k) := by
  simp only [JVal.member, memberD]
  cases h : lookupField fs k
  · simp [h]
  · simp [h]

/-! ## C1: the idempotent no-op guard of the charge orchestrator -/

/-- C1 (counterexample): a ChargeRequest write whose new value contains an
`id` field with the falsy value `0` is nevertheless processed: the
orchestrator makes a provider call and a write-back, so the claim that a
value already containing a response id field is an idempotent no-op fails at
this input (the code tests truthiness of `val.id`, not field presence). -/
theorem chargeGuard_fieldPresence_counterexample :
    JVal.hasField chargeValFalsyId "id" = true ∧
    ¬((createStripeCharge okChargeStripe true "USD" dbOneCustomer "u1" "p1"
          chargeValFalsyId).providerCalls = [] ∧
      (createStripeCharge okChargeStripe true "USD" dbOneCustomer "u1" "p1"
          chargeValFalsyId).db = dbOneCustomer) := by
  decide

/-- C1 (amended): for every ChargeRequest write whose new value is null
(deleted) or whose `id` or `error` member is truthy, the charge orchestrator
performs no provider call, makes no write-back, reports nothing, and resolves
successfully — the idempotent no-op. (A falsy `id` or `error` field, such as
`0` or the empty string, does not trigger the guard.) -/
theorem chargeNoop_of_null_or_truthy_processed
    (stripeCh : ChargePayload → String → Except JVal JVal) (sinkOk : Bool)
    (curr : String) (db : JVal) (userId id : String) (val : JVal)
    (h : val = .null ∨ (∃ t, val.member "id" = .ok t ∧ t.truthy = true) ∨
         (∃ t, val.member "error" = .ok t ∧ t.truthy = true)) :
    createStripeCharge stripeCh sinkOk curr db userId id val = ⟨[], db, [], true⟩ := by
  rcases h with rfl | ⟨t, hm, ht⟩ | ⟨t, hm, ht⟩
  · rfl
  · cases val with
    | null => simp [JVal.member] at hm
    | undefined => simp [JVal.member] at hm
    | bool b => simp [JVal.member] at hm; subst hm; simp [JVal.truthy] at ht
    | num n => simp [JVal.member] at hm; subst hm; simp [JVal.truthy] at ht
    | str s => simp [JVal.member] at hm; subst hm; simp [JVal.truthy] at ht
    | obj fs =>
        rw [member_obj] at hm
        have ht2 : (memberD (.obj fs) "id").truthy = true := by cases hm; exact ht
        simp [createStripeCharge, member_obj, ht2]
  · cases val with
    | null => simp [JVal.member] at hm
    | undefined => simp [JVal.member] at hm
    | bool b => simp [JVal.member] at hm; subst hm; simp [JVal.truthy] at ht
    | num n => simp [JVal.member] at hm; subst hm; simp [JVal.truthy] at ht
    | str s => simp [JVal.member] at hm; subst hm; simp [JVal.truthy] at ht
    | obj fs =>
        rw [member_obj] at hm
        have ht2 : (memberD (.obj fs) "error").truthy = true := by cases hm; exact ht
        by_cases hid : (memberD (.obj fs) "id").truthy = true
        · simp [createStripeCharge, member_obj, hid]
        · simp [createStripeCharge, member_obj, hid, ht2]

/-- C1 (witness): the amended no-op guard at a concrete processed value, with
a truthy response id. -/
theorem chargeNoop_of_null_or_truthy_processed_wit :
    (chargeValProcessed = .null ∨
      (∃ t, chargeValProcessed.member "id" = .ok t ∧ t.truthy = true) ∨
      (∃ t, chargeValProcessed.member "error" = .ok t ∧ t.truthy = true)) ∧
    createStripeCharge okChargeStripe true "USD" dbOneCustomer "u1" "p1"
        chargeValProcessed = ⟨[], dbOneCustomer, [], true⟩ :=
  ⟨Or.inr (Or.inl ⟨.str "ch_9", rfl, rfl⟩),
   chargeNoop_of_null_or_truthy_processed _ _ _ _ _ _ _
     (Or.inr (Or.inl ⟨.str "ch_9", rfl, rfl⟩))⟩

/-! ## C2: a fresh ChargeRequest is charged idempotently and written back -/

/-- C2 (confirmed): for a fresh ChargeRequest with amount 500 and null source
under an account whose customer record reads `cus_123`, the orchestrator
submits exactly one charge to the provider — amount 500, the process-wide
configured default currency, customer `cus_123`, no source — using the
record's own push id as the idempotency key, and on provider success writes
the provider's response into the same record. -/
theorem chargeFresh_submits_and_writes_response
    (stripeCh : ChargePayload → String → Except JVal JVal) (sinkOk : Bool)
    (curr : String) (db : JVal) (userId id : String) (response : JVal)
    (hcust : dbRead db ["stripe_customers", userId, "customer_id"] = .str "cus_123")
    (hok : stripeCh ⟨.num 500, curr, .str "cus_123", none⟩ id = .ok response) :
    createStripeCharge stripeCh sinkOk curr db userId id freshCharge500 =
      ⟨[(⟨.num 500, curr, .str "cus_123", none⟩, id)],
       dbWrite db ["stripe_customers", userId, "charges", id] response, [], true⟩ := by
  simp only [createStripeCharge, freshCharge500]
  rw [hcust]
  simp [JVal.member, lookupField, JVal.truthy, hok]

/-- C2 (witness): the fresh charge at a concrete database and an accepting
provider. -/
theorem chargeFresh_submits_and_writes_response_wit :
    dbRead dbOneCustomer ["stripe_customers", "u1", "customer_id"] = .str "cus_123" ∧
    createStripeCharge okChargeStripe true "USD" dbOneCustomer "u1" "p1" freshCharge500 =
      ⟨[(⟨.num 500, "USD", .str "cus_123", none⟩, "p1")],
       dbWrite dbOneCustomer ["stripe_customers", "u1", "charges", "p1"]
         (.obj [("id", .str "ch_1")]), [], true⟩ :=
  ⟨rfl, chargeFresh_submits_and_writes_response okChargeStripe true "USD"
    dbOneCustomer "u1" "p1" (.obj [("id", .str "ch_1")]) rfl rfl⟩

/-! ## C3: provider rejection of a charge -/

/-- C3 (confirmed): when the provider rejects the charge for a fresh
ChargeRequest (an object value with falsy `id` and `error` members), the
orchestrator writes the sanitized user-facing message into the nested `error`
child of the same record, forwards the raw error to the Error Reporter with
the account id as context, and — the logging sink succeeding — the invocation
resolves successfully. -/
theorem chargeRejection_writes_error_and_reports
    (stripeCh : ChargePayload → String → Except JVal JVal)
    (curr : String) (db : JVal) (userId id : String)
    (fs : List (String × JVal)) (err msg : JVal)
    (hid : (memberD (.obj fs) "id").truthy = false)
    (herr : (memberD (.obj fs) "error").truthy = false)
    (hrej : stripeCh ⟨memberD (.obj fs) "amount", curr,
        dbRead db ["stripe_customers", userId, "customer_id"],
        if memberD (.obj fs) "source" = .null then none
        else some (memberD (.obj fs) "source")⟩ id = .error err)
    (hmsg : userFacingMessage err = .ok msg) :
    createStripeCharge stripeCh true curr db userId id (.obj fs) =
      ⟨[(⟨memberD (.obj fs) "amount", curr,
          dbRead db ["stripe_customers", userId, "customer_id"],
          if memberD (.obj fs) "source" = .null then none
          else some (memberD (.obj fs) "source")⟩, id)],
       dbWrite db ["stripe_customers", userId, "charges", id, "error"] msg,
       [(err, userId)], true⟩ := by
  simp only [createStripeCharge, member_obj]
  simp [hid, herr, hrej, hmsg]

/-- C3 (witness): a concrete card-error rejection — the record's error child
receives the pass-through card message and the raw error is reported with the
account id. -/
theorem chargeRejection_writes_error_and_reports_wit :
    userFacingMessage cardError = .ok (.str "Your card was declined.") ∧
    createStripeCharge declinedChargeStripe true "USD" dbOneCustomer "u1" "p1"
        freshCharge500 =
      ⟨[(⟨.num 500, "USD", .str "cus_123", none⟩, "p1")],
       dbWrite dbOneCustomer ["stripe_customers", "u1", "charges", "p1", "error"]
         (.str "Your card was declined."),
       [(cardError, "u1")], true⟩ :=
  ⟨rfl, chargeRejection_writes_error_and_reports declinedChargeStripe "USD"
    dbOneCustomer "u1" "p1" [("amount", .num 500), ("source", .null)]
    cardError (.str "Your card was declined.") rfl rfl rfl rfl⟩

/-! ## C4: the sanitize function -/

/-- C4 (counterexample): an error value that carries a `type` field with the
falsy value of an empty string is genericized, not passed through, so the
claim that the raw message is returned exactly when a `type` tag is present
fails at this input (the code tests truthiness of `error.type`). -/
theorem userFacingMessage_fieldPresence_counterexample :
    JVal.hasField (.obj [("type", .str ""), ("message", .str "boom")]) "type" = true ∧
    userFacingMessage (.obj [("type", .str ""), ("message", .str "boom")]) =
      .ok (.str "An error occurred, developers have been alerted") ∧
    memberD (.obj [("type", .str ""), ("message", .str "boom")]) "message" =
      .str "boom" ∧
    (JVal.str "An error occurred, developers have been alerted") ≠ .str "boom" := by
  refine ⟨rfl, rfl, rfl, ?_⟩
  decide

/-- C4 (amended): for every object error value, the sanitize function returns
`error.message` exactly when the error's `type` member is truthy, and
otherwise (including a present but falsy `type` field) returns the generic
fallback string. -/
theorem userFacingMessage_truthy_characterization (fs : List (String × JVal)) :
    ((memberD (.obj fs) "type").truthy = true →
      userFacingMessage (.obj fs) = .ok (memberD (.obj fs) "message")) ∧
    ((memberD (.obj fs) "type").truthy = false →
      userFacingMessage (.obj fs) =
        .ok (.str "An error occurred, developers have been alerted")) := by
  constructor
  · intro ht
    simp [userFacingMessage, member_obj, ht]
  · intro ht
    simp [userFacingMessage, member_obj, ht]

/-- C4 (witness): both directions of the amended characterization at concrete
errors — a card error is passed through, a typeless error is genericized. -/
theorem userFacingMessage_truthy_characterization_wit :
    ((memberD cardError "type").truthy = true ∧
      userFacingMessage cardError = .ok (memberD cardError "message")) ∧
    ((memberD (.obj [("message", .str "internal")]) "type").truthy = false ∧
      userFacingMessage (.obj [("message", .str "internal")]) =
        .ok (.str "An error occurred, developers have been alerted")) :=
  ⟨⟨rfl, (userFacingMessage_truthy_characterization
      [("type", .str "card_error"), ("message", .str "Your card was declined.")]).1 rfl⟩,
   ⟨rfl, (userFacingMessage_truthy_characterization
      [("message", .str "internal")]).2 rfl⟩⟩

/-! ## C5: account deletion with no customer record -/

/-- C5 (counterexample): deleting an account with no CustomerRecord entry is
not a no-op: with the test double provider, a provider deletion call is made
(with the null value) and the invocation errors, refuting the claim at this
input (the handler has no absence guard). -/
theorem cleanupUser_missing_record_counterexample :
    dbRead (JVal.obj []) ["stripe_customers", "u1"] = .null ∧
    ¬((cleanupUser customersDel (⟨[], 1⟩ : StripeState) (.obj []) "u1").delCalls = [] ∧
      (cleanupUser customersDel (⟨[], 1⟩ : StripeState) (.obj []) "u1").ok = true) := by
  decide

/-- C5 (amended): account deletion for an account with no CustomerRecord
entry still issues exactly one provider deletion call, passing the null
value it read; the invocation resolves without error exactly when the
provider accepts that call. -/
theorem cleanupUser_missing_record_calls_null {α : Type}
    (del : α → JVal → Except JVal α) (st : α) (db : JVal) (uid : String)
    (habs : dbRead db ["stripe_customers", uid] = .null) :
    (cleanupUser del st db uid).delCalls = [.null] ∧
    ((cleanupUser del st db uid).ok = true ↔ ∃ st2, del st .null = .ok st2) := by
  simp only [cleanupUser, habs]
  cases h : del st .null <;> simp [h]

/-- C5 (witness): the amended behaviour on an empty database with the test
double provider. -/
theorem cleanupUser_missing_record_calls_null_wit :
    dbRead (JVal.obj []) ["stripe_customers", "u1"] = .null ∧
    (cleanupUser customersDel (⟨[], 1⟩ : StripeState) (.obj []) "u1").delCalls =
      [.null] :=
  ⟨rfl, (cleanupUser_missing_record_calls_null customersDel ⟨[], 1⟩ (.obj []) "u1"
    rfl).1⟩

/-! ## C6: provider deletion precedes local record removal -/

/-- C6 (confirmed): in account deletion the provider customer deletion comes
first — it is attempted on the value read from the record — and when the
provider call fails the local CustomerRecord node is left unchanged (intact
for retry by reinvocation), the provider state is unchanged, and the
invocation rejects. -/
theorem cleanupUser_failure_preserves_record {α : Type}
    (del : α → JVal → Except JVal α) (st : α) (db : JVal) (uid : String) (e : JVal)
    (hfail : del st (dbRead db ["stripe_customers", uid]) = .error e) :
    (cleanupUser del st db uid).delCalls = [dbRead db ["stripe_customers", uid]] ∧
    (cleanupUser del st db uid).db = db ∧
    (cleanupUser del st db uid).provider = st ∧
    (cleanupUser del st db uid).ok = false := by
  simp [cleanupUser, hfail]

/-- C6 (witness): a concrete failing provider deletion leaves the concrete
database untouched. -/
theorem cleanupUser_failure_preserves_record_wit :
    customersDel ⟨[("cus_7", .null)], 8⟩
        (dbRead dbOneCustomer ["stripe_customers", "u1"]) =
      .error (.str "Invalid customer id") ∧
    (cleanupUser customersDel (⟨[("cus_7", .null)], 8⟩ : StripeState)
        dbOneCustomer "u1").db = dbOneCustomer :=
  ⟨rfl, (cleanupUser_failure_preserves_record customersDel ⟨[("cus_7", .null)], 8⟩
    dbOneCustomer "u1" (.str "Invalid customer id") rfl).2.1⟩

/-! ## C7: the payment-source orchestrator writes to the parent record -/

/-- C7 (confirmed): on a write to a source-token leaf, the orchestrator does
nothing when the token is null; otherwise it resolves the customer record,
attaches exactly that (customer, source) pair at the provider, and writes the
provider response — or the sanitized error, under its `error` child — at the
parent record of the token leaf, not at the token leaf itself. (The
hypothesis asks that provider rejections be sanitizable error values, as
provider errors are.) -/
theorem addPaymentSource_writes_to_parent
    (createSource : JVal → JVal → Except JVal JVal) (sinkOk : Bool)
    (db : JVal) (userId pushId : String) (source : JVal)
    (hsane : ∀ e, createSource (dbRead db ["stripe_customers", userId, "customer_id"])
        source = .error e → ∃ m, userFacingMessage e = .ok m) :
    (source = .null →
      addPaymentSource createSource sinkOk db userId pushId source = ⟨[], db, [], true⟩) ∧
    (source ≠ .null →
      (addPaymentSource createSource sinkOk db userId pushId source).attachCalls =
        [(dbRead db ["stripe_customers", userId, "customer_id"], source)] ∧
      ((∃ r, createSource (dbRead db ["stripe_customers", userId, "customer_id"])
            source = .ok r ∧
          (addPaymentSource createSource sinkOk db userId pushId source).db =
            dbWrite db ["stripe_customers", userId, "sources", pushId] r) ∨
       (∃ e m, createSource (dbRead db ["stripe_customers", userId, "customer_id"])
            source = .error e ∧ userFacingMessage e = .ok m ∧
          (addPaymentSource createSource sinkOk db userId pushId source).db =
            dbWrite db ["stripe_customers", userId, "sources", pushId, "error"] m))) := by
  constructor
  · intro h
    subst h
    rfl
  · intro hne
    cases h : createSource (dbRead db ["stripe_customers", userId, "customer_id"]) source with
    | ok r =>
        refine ⟨?_, Or.inl ⟨r, rfl, ?_⟩⟩ <;> simp [addPaymentSource, hne, h]
    | error e =>
        obtain ⟨m, hm⟩ := hsane e h
        refine ⟨?_, Or.inr ⟨e, m, rfl, hm, ?_⟩⟩ <;> simp [addPaymentSource, hne, h, hm]

/-- C7 (witness): attaching a concrete non-null token with an accepting
provider writes the response at the parent push node. -/
theorem addPaymentSource_writes_to_parent_wit :
    (JVal.str "tok_visa" ≠ JVal.null) ∧
    (addPaymentSource okSourceStripe true dbOneCustomer "u1" "p1"
        (.str "tok_visa")).attachCalls = [(.str "cus_123", .str "tok_visa")] :=
  ⟨by decide,
   by
    have h := (addPaymentSource_writes_to_parent okSourceStripe true dbOneCustomer
      "u1" "p1" (.str "tok_visa") (fun e he => nomatch he)).2 (by decide)
    exact h.1⟩

/-! ## C8: the account round trip -/

/-- C8 (code evaluated at the failing input): creating the account `u1` with
the test double provider and then deleting it does not clean up — the
deletion handler passes the whole CustomerRecord object (not the customer id
string) to the provider, the provider rejects it, and both the provider
customer and the local record remain; the invocation rejects. -/
theorem roundTrip_leaves_customer_and_record :
    (roundTrip ⟨[], 1⟩ (.obj []) "u1" (.str "a@b.c")).delCalls =
      [.obj [("customer_id", .str "cus_1")]] ∧
    (roundTrip ⟨[], 1⟩ (.obj []) "u1" (.str "a@b.c")).provider.customers =
      [("cus_1", .obj [("email", .str "a@b.c")])] ∧
    dbRead (roundTrip ⟨[], 1⟩ (.obj []) "u1" (.str "a@b.c")).db
      ["stripe_customers", "u1"] ≠ .null ∧
    (roundTrip ⟨[], 1⟩ (.obj []) "u1" (.str "a@b.c")).ok = false := by
  decide

/-! ## C9: the admin confirmation email -/

/-- C9 (counterexample): a change to an AdminRecord whose new value carries a
truthy `active` member (here, adding a role to an active admin) sends no
confirmation email, refuting the claim that every change triggers one. -/
theorem sendEmailConfirmation_change_counterexample :
    adminBefore ≠ adminAfter ∧
    (sendEmailConfirmation "proj" adminBefore adminAfter).sent = [] := by
  decide

/-- C9 (amended): for object-valued AdminRecord writes, the confirmation
email is sent exactly when the new record's `active` member is falsy —
regardless of the old value and of which fields changed (the `changed()`
guard holds for every delivered write) — and any email sent is the admin
confirmation addressed to the record's `email` member. -/
theorem sendEmailConfirmation_sends_iff (project : String) (before : JVal)
    (fs : List (String × JVal)) :
    ((sendEmailConfirmation project before (.obj fs)).sent ≠ [] ↔
      (memberD (.obj fs) "active").truthy = false) ∧
    ((sendEmailConfirmation project before (.obj fs)).sent = [] ∨
     (sendEmailConfirmation project before (.obj fs)).sent =
       [⟨memberD (.obj fs) "email", "Admin Confirmation", adminHtml project⟩]) := by
  simp only [sendEmailConfirmation, member_obj]
  by_cases hact : (memberD (.obj fs) "active").truthy
  · simp [hact]
  · simp [hact]

/-! ## C10: order confirmation with no user email -/

/-- C10 (confirmed): when an order exists under a user whose record has no
truthy `email` (absent or falsy), the order-confirmation handler sends no
email and the invocation resolves without error. -/
theorem sendOrderConfirmation_missing_email_noop (project : String) (db : JVal)
    (uid orderId : String)
    (horder : dbRead db ["users", uid, "orders", orderId] ≠ .null)
    (hemail : (dbRead db ["users", uid, "email"]).truthy = false) :
    sendOrderConfirmation project db uid orderId = ⟨[], true⟩ := by
  have h2 : dbRead (dbRead db ["users", uid]) ["orders", orderId] ≠ .null := by
    rw [← dbRead_append ["users", uid] ["orders", orderId] db]
    exact horder
  obtain ⟨fs, hfs⟩ := dbRead_cons_ne_null h2
  have hsplit : dbRead db ["users", uid, "email"] =
      dbRead (dbRead db ["users", uid]) ["email"] :=
    dbRead_append ["users", uid] ["email"] db
  have h3 : (memberD (.obj fs) "email").truthy = false := by
    cases hlk : lookupField fs "email" with
    | some v =>
        have hv : v.truthy = false := by
          have : dbRead db ["users", uid, "email"] = v := by
            rw [hsplit, hfs]
            simp [dbRead, hlk]
          rw [← this]
          exact hemail
        simp [memberD, JVal.member, hlk, hv]
    | none => simp [memberD, JVal.member, hlk, JVal.truthy]
  unfold sendOrderConfirmation
  rw [hfs]
  simp [member_obj, h3]

/-- C10 (witness): a concrete database holding one order under a user record
with no email field. -/
theorem sendOrderConfirmation_missing_email_noop_wit :
    dbRead dbOneOrder ["users", "u1", "orders", "o1"] ≠ .null ∧
    (dbRead dbOneOrder ["users", "u1", "email"]).truthy = false ∧
    sendOrderConfirmation "proj" dbOneOrder "u1" "o1" = ⟨[], true⟩ :=
  ⟨by decide, rfl,
   sendOrderConfirmation_missing_email_noop "proj" dbOneOrder "u1" "o1"
     (by decide) rfl⟩
